import Mathlib

/-!
Verification of the declarative parameter-validation and error-mapping
pipeline of the `fastapi_usage` repository (`src/python/src/main.py`).

The repository's own code is the set of endpoint handlers, model classes and
exception handlers in `main.py`; these are embedded below directly from the
source. The binding pipeline that feeds them (source extraction, constraint
checking, aggregation of validation failures, exception routing) is supplied
by the framework and is not part of the repository's sources, so it is
modelled from the specification's description, as noted on each such
definition.

Numeric scalars are modelled as integers: every numeric value appearing in
the verified properties (path ids, bounds, prices, taxes) is integral, and
floating-point rounding is out of scope.
-/

set_option autoImplicit false

/-- A JSON-like value: the shape of request bodies, bound values and
response payloads. -/
inductive Json where
  | null
  | bool (b : Bool)
  | num (n : Int)
  | str (s : String)
  | arr (xs : List Json)
  | obj (fields : List (String × Json))

/-- One component of an error location path: an object key or a list index. -/
inductive LocKey where
  | s (v : String)
  | i (v : Nat)
deriving DecidableEq

/-- One entry of a `ValidationFailure`: location, message and error kind,
as in the error envelope `{loc, msg, type}`. -/
structure ErrItem where
  loc : List LocKey
  msg : String
  ty : String
deriving DecidableEq

/-- An abstract response value handed back to the transport layer. -/
structure Response where
  statusCode : Int
  body : Json
  headers : List (String × String)

/-! ## Constraint Engine (modelled from the spec, section 4.1) -/

/-- The anchored regular expressions actually declared in the source:
`^[0-9]*$` on `needy` and `^[a-zA-Z]*$` on `q`. -/
inductive Pat where
  | digits
  | letters
deriving DecidableEq

/-- Whether a string matches one of the declared anchored patterns. -/
def Pat.accepts : Pat → String → Bool
  | .digits, s => s.data.all (fun c => c.isDigit)
  | .letters, s => s.data.all (fun c => c.isAlpha)

/-- Parses a non-empty all-digit character list as a natural number. -/
def parseNatChars? (cs : List Char) : Option Nat :=
  if cs ≠ [] ∧ cs.all (fun c => c.isDigit) then
    some (cs.foldl (fun n c => 10 * n + (c.toNat - 48)) 0)
  else none

/-- Parses a decimal integer with an optional leading minus sign. -/
def parseInt? (s : String) : Option Int :=
  match s.data with
  | '-' :: rest => (parseNatChars? rest).map (fun n => -(n : Int))
  | cs => (parseNatChars? cs).map (fun n => (n : Int))

/-- Numeric bound constraints, each independently optional. -/
structure NumCons where
  gt : Option Int := none
  ge : Option Int := none
  lt : Option Int := none
  le : Option Int := none

/-- String constraints: length bounds and pattern. -/
structure StrCons where
  minLength : Option Nat := none
  maxLength : Option Nat := none
  pat : Option Pat := none

/-- Modelled from the spec: numeric bound checking; every failing bound
yields one error (never stopping at the first failing bound). -/
def checkNum (loc : List LocKey) (c : NumCons) (n : Int) : List ErrItem :=
  (match c.gt with
    | some b => if n ≤ b then
        [⟨loc, "ensure this value is greater than " ++ toString b,
          "value_error.number.not_gt"⟩] else []
    | none => []) ++
  (match c.ge with
    | some b => if n < b then
        [⟨loc, "ensure this value is greater than or equal to " ++ toString b,
          "value_error.number.not_ge"⟩] else []
    | none => []) ++
  (match c.lt with
    | some b => if b ≤ n then
        [⟨loc, "ensure this value is less than " ++ toString b,
          "value_error.number.not_lt"⟩] else []
    | none => []) ++
  (match c.le with
    | some b => if b < n then
        [⟨loc, "ensure this value is less than or equal to " ++ toString b,
          "value_error.number.not_le"⟩] else []
    | none => [])

/-- Modelled from the spec: string constraint checking with the same
accumulate-all-failures policy. -/
def checkStr (loc : List LocKey) (c : StrCons) (s : String) : List ErrItem :=
  (match c.minLength with
    | some m => if s.length < m then
        [⟨loc, "ensure this value has at least " ++ toString m ++ " characters",
          "value_error.any_str.min_length"⟩] else []
    | none => []) ++
  (match c.maxLength with
    | some m => if m < s.length then
        [⟨loc, "ensure this value has at most " ++ toString m ++ " characters",
          "value_error.any_str.max_length"⟩] else []
    | none => []) ++
  (match c.pat with
    | some p => if p.accepts s then [] else
        [⟨loc, "string does not match regex", "value_error.str.regex"⟩]
    | none => [])

/-- Modelled from the spec: type coercion of an integer-typed field; a parse
failure is a type error and short-circuits constraint checks for this field
only; on success the declared bounds are checked, accumulating all failures. -/
def vInt (loc : List LocKey) (c : NumCons) : Json → Except (List ErrItem) Json
  | .num n =>
      match checkNum loc c n with
      | [] => .ok (.num n)
      | es => .error es
  | .str s =>
      match parseInt? s with
      | some n =>
          match checkNum loc c n with
          | [] => .ok (.num n)
          | es => .error es
      | none => .error [⟨loc, "value is not a valid integer", "type_error.integer"⟩]
  | _ => .error [⟨loc, "value is not a valid integer", "type_error.integer"⟩]

/-- Modelled from the spec: a required string scalar. -/
def vStr (loc : List LocKey) (c : StrCons) : Json → Except (List ErrItem) Json
  | .str s =>
      match checkStr loc c s with
      | [] => .ok (.str s)
      | es => .error es
  | _ => .error [⟨loc, "str type expected", "type_error.str"⟩]

/-- Modelled from the spec: a nullable string scalar; the null default passes
(the field is nullable), any other value is checked as a string. -/
def vOptStr (loc : List LocKey) (c : StrCons) : Json → Except (List ErrItem) Json
  | .null => .ok .null
  | j => vStr loc c j

/-- Modelled from the spec: boolean coercion from the usual textual forms. -/
def vBool (loc : List LocKey) : Json → Except (List ErrItem) Json
  | .bool b => .ok (.bool b)
  | .str s =>
      if s = "true" ∨ s = "True" ∨ s = "1" ∨ s = "on" ∨ s = "yes" then .ok (.bool true)
      else if s = "false" ∨ s = "False" ∨ s = "0" ∨ s = "off" ∨ s = "no" then .ok (.bool false)
      else .error [⟨loc, "value could not be parsed to a boolean", "type_error.bool"⟩]
  | _ => .error [⟨loc, "value could not be parsed to a boolean", "type_error.bool"⟩]

/-- Modelled from the spec: a collection field over strings; each element is
validated against the scalar constraints, with its index in the location. -/
def vListStr (loc : List LocKey) (c : StrCons) : Json → Except (List ErrItem) Json
  | .arr xs =>
      match (xs.enum.map (fun p =>
        match p.2 with
        | .str s => checkStr (loc ++ [.i p.1]) c s
        | _ => [⟨loc ++ [.i p.1], "str type expected", "type_error.str"⟩])).flatten with
      | [] => .ok (.arr xs)
      | es => .error es
  | _ => .error [⟨loc, "value is not a valid list", "type_error.list"⟩]

/-! ## Source Extractor and Binder (modelled from the spec, sections 4.2-4.3) -/

/-- The origin of a field's raw value. -/
inductive Source where
  | path
  | query
  | header
  | cookie
  | bodyField
  | formField
  | fileField
deriving DecidableEq

/-- Whether a source is body-carried (JSON body key space). -/
def Source.isBody : Source → Bool
  | .bodyField => true
  | _ => false

/-- An uploaded file part: original filename and byte length. -/
structure FileBlob where
  filename : String
  size : Nat
deriving DecidableEq

/-- An abstract request as handed over by the transport layer: matched path
segments, query pairs in order of appearance, headers, cookies, the parsed
JSON body if any, and parsed form/multipart parts. -/
structure Request where
  pathParams : List (String × String) := []
  queryParams : List (String × String) := []
  headers : List (String × String) := []
  cookies : List (String × String) := []
  body : Option Json := none
  formFields : List (String × String) := []
  files : List (String × FileBlob) := []

/-- An immutable field declaration of a handler signature: binding name,
source, optional alias, requiredness, default (used only when optional),
whether the target type is a collection, whether body embedding was
explicitly requested, and the validator built from the declared target type
and constraints. -/
structure FieldDecl where
  name : String
  source : Source
  aliasKey : Option String := none
  required : Bool
  default : Json := .null
  isCollection : Bool := false
  embed : Bool := false
  validate : Json → Except (List ErrItem) Json

/-- The lookup key of a field: the alias when declared, else the name. -/
def keyOf (d : FieldDecl) : String := d.aliasKey.getD d.name

/-- The location name of a source in error envelopes. -/
def Source.locName : Source → String
  | .path => "path"
  | .query => "query"
  | .header => "header"
  | .cookie => "cookie"
  | .bodyField => "body"
  | .formField => "body"
  | .fileField => "body"

/-- The error location of a field itself. -/
def locOf (d : FieldDecl) : List LocKey := [.s d.source.locName, .s (keyOf d)]

/-- All values bound to a key in an ordered multi-map, in order of
appearance. -/
def lookupAll (kvs : List (String × String)) (k : String) : List String :=
  (kvs.filter (fun p => p.1 = k)).map Prod.snd

/-- First value bound to a key in an ordered multi-map. -/
def lookupFirst (kvs : List (String × String)) (k : String) : Option String :=
  (lookupAll kvs k).head?

/-- Case-insensitive first lookup, for headers. -/
def lookupHeader (kvs : List (String × String)) (k : String) : Option String :=
  ((kvs.filter (fun p => p.1.toLower = k.toLower)).map Prod.snd).head?

/-- Key lookup inside a parsed JSON object. -/
def objLookup (k : String) : Json → Option Json
  | .obj fs => fs.lookup k
  | _ => none

/-- The body-sourced declarations of a handler signature. -/
def bodyDecls (all : List FieldDecl) : List FieldDecl :=
  all.filter (fun d => d.source.isBody)

/-- Modelled from the spec: the JSON body is treated as a map of per-field
keys exactly when the handler declares more than one top-level body-sourced
field or explicitly requests embedding. -/
def bodyEmbedded (all : List FieldDecl) : Bool :=
  1 < (bodyDecls all).length ∨ (bodyDecls all).any (fun d => d.embed)

/-- Modelled from the spec: the Source Extractor. Pulls the raw value of a
field from its declared origin, or reports absence; it never applies
coercion or constraints. Query/header/cookie fields are looked up by alias
if declared, else by field name; a collection-typed field over these sources
collects all occurrences in order. Body fields are looked up under their own
key when the signature is embedded, else the whole body is the value. -/
def extractRaw (all : List FieldDecl) (req : Request) (d : FieldDecl) : Option Json :=
  match d.source with
  | .path => (lookupFirst req.pathParams d.name).map .str
  | .query =>
      if d.isCollection then
        match lookupAll req.queryParams (keyOf d) with
        | [] => none
        | vs => some (.arr (vs.map .str))
      else (lookupFirst req.queryParams (keyOf d)).map .str
  | .header =>
      if d.isCollection then
        match lookupAll (req.headers.map (fun p => (p.1.toLower, p.2))) ((keyOf d).toLower) with
        | [] => none
        | vs => some (.arr (vs.map .str))
      else (lookupHeader req.headers (keyOf d)).map .str
  | .cookie => (lookupFirst req.cookies (keyOf d)).map .str
  | .bodyField =>
      match req.body with
      | none => none
      | some b => if bodyEmbedded all then objLookup (keyOf d) b else some b
  | .formField => (lookupFirst req.formFields (keyOf d)).map .str
  | .fileField =>
      if d.isCollection then
        match (req.files.filter (fun p => p.1 = keyOf d)).map Prod.snd with
        | [] => none
        | fs => some (.arr (fs.map (fun f => .obj
            [("filename", .str f.filename), ("size", .num f.size)])))
      else ((req.files.filter (fun p => p.1 = keyOf d)).map Prod.snd).head?.map
        (fun f => .obj [("filename", .str f.filename), ("size", .num f.size)])

/-- The `ValidationFailure` entry for an absent required field. -/
def missingEntry (d : FieldDecl) : ErrItem :=
  ⟨locOf d, "field required", "value_error.missing"⟩

/-- Modelled from the spec: binding of one field. A present raw value is fed
to the Constraint Engine; an absent required field is a `MissingError`; an
absent optional field binds its declared default, with the constraints still
applied to the default. -/
def bindField (all : List FieldDecl) (req : Request) (d : FieldDecl) :
    Except (List ErrItem) Json :=
  match extractRaw all req d with
  | none => if d.required then .error [missingEntry d] else d.validate d.default
  | some v => d.validate v

/-- Modelled from the spec: the Binder's traversal. Every declared field is
processed independently in declaration order; typed values and errors are
collected into a running pair, so no field's failure stops the others. -/
def bindList (decls all : List FieldDecl) (req : Request) :
    List (String × Json) × List ErrItem :=
  match decls with
  | [] => ([], [])
  | d :: rest =>
      let tail := bindList rest all req
      match bindField all req d with
      | .ok v => ((d.name, v) :: tail.1, tail.2)
      | .error es => (tail.1, es ++ tail.2)

/-- Modelled from the spec: `bind(handlerSignature, request)` returns the
fully populated bound call, or the aggregated `ValidationFailure` when any
field failed (never partial success). -/
def bindRequest (decls : List FieldDecl) (req : Request) :
    Except (List ErrItem) (List (String × Json)) :=
  match bindList decls decls req with
  | (vals, []) => .ok vals
  | (_, es) => .error es

/-- JSON rendering of a location component. -/
def LocKey.toJson : LocKey → Json
  | .s v => .str v
  | .i v => .num v

/-- JSON rendering of one error entry. -/
def ErrItem.toJson (e : ErrItem) : Json :=
  .obj [("loc", .arr (e.loc.map LocKey.toJson)), ("msg", .str e.msg), ("type", .str e.ty)]

/-- Modelled from the spec: the validation branch of the Exception Router
produces a fixed 422 response whose body enumerates every collected entry,
never just the first. -/
def validationResponse (es : List ErrItem) : Response :=
  ⟨422, .obj [("detail", .arr (es.map ErrItem.toJson))], []⟩

/-! ## Structured types of the source (`Image`, `Item`, `User`, `Offer`,
`UserIn`), as recursive body validators. Nested structured types are bound
recursively, each failure location prefixed by the parent field's path;
URL and e-mail formats are abstracted to strings (no claim depends on
them). -/

/-- Validation of one declared subfield of a structured type: looked up
under its own key; absent and required is a missing error at the subfield's
location, absent and optional is fine (defaults of these models pass their
constraints); present values are checked at the prefixed location. -/
def fieldAt (loc : List LocKey) (fs : List (String × Json)) (k : String)
    (required : Bool) (check : List LocKey → Json → List ErrItem) : List ErrItem :=
  match fs.lookup k with
  | none =>
      if required then [⟨loc ++ [.s k], "field required", "value_error.missing"⟩] else []
  | some v => check (loc ++ [.s k]) v

/-- A string-typed subfield check. -/
def cStr (c : StrCons) (loc : List LocKey) : Json → List ErrItem
  | .str s => checkStr loc c s
  | _ => [⟨loc, "str type expected", "type_error.str"⟩]

/-- A nullable string-typed subfield check. -/
def cOptStr (c : StrCons) (loc : List LocKey) : Json → List ErrItem
  | .null => []
  | j => cStr c loc j

/-- A numeric subfield check. -/
def cNum (c : NumCons) (loc : List LocKey) : Json → List ErrItem
  | .num n => checkNum loc c n
  | _ => [⟨loc, "value is not a valid number", "type_error.float"⟩]

/-- A nullable numeric subfield check. -/
def cOptNum (c : NumCons) (loc : List LocKey) : Json → List ErrItem
  | .null => []
  | j => cNum c loc j

/-- A collection-of-strings subfield check (used by `tags` and `keks`). -/
def cListStr (loc : List LocKey) : Json → List ErrItem
  | .arr xs =>
      (xs.enum.map (fun p =>
        match p.2 with
        | .str _ => []
        | _ => [⟨loc ++ [.i p.1], "str type expected", "type_error.str"⟩])).flatten
  | _ => [⟨loc, "value is not a valid list", "type_error.list"⟩]

/-- `Image` from the source: `url: HttpUrl`, `name: str`. -/
def validateImageJ (loc : List LocKey) : Json → List ErrItem
  | .obj fs =>
      fieldAt loc fs "url" true (cStr {}) ++
      fieldAt loc fs "name" true (cStr {})
  | _ => [⟨loc, "value is not a valid dict", "type_error.dict"⟩]

/-- A nullable list-of-`Image` subfield check (`Item.images`). -/
def cOptListImage (loc : List LocKey) : Json → List ErrItem
  | .null => []
  | .arr xs => (xs.enum.map (fun p => validateImageJ (loc ++ [.i p.1]) p.2)).flatten
  | _ => [⟨loc, "value is not a valid list", "type_error.list"⟩]

/-- `Item` from the source: `name: str`, `description: str | None`
(max_length 300), `price: float` (gt 0), `tax: float | None`,
`tags: List[str]`, `keks: Set[str]`, `images: List[Image] | None`. -/
def validateItemJ (loc : List LocKey) : Json → List ErrItem
  | .obj fs =>
      fieldAt loc fs "name" true (cStr {}) ++
      fieldAt loc fs "description" false (cOptStr { maxLength := some 300 }) ++
      fieldAt loc fs "price" true (cNum { gt := some 0 }) ++
      fieldAt loc fs "tax" false (cOptNum {}) ++
      fieldAt loc fs "tags" false (fun l v => cListStr l v) ++
      fieldAt loc fs "keks" false (fun l v => cListStr l v) ++
      fieldAt loc fs "images" false cOptListImage
  | _ => [⟨loc, "value is not a valid dict", "type_error.dict"⟩]

/-- `User` from the source: `username: str`, `full_name: str | None`,
`image: Image | None`. -/
def validateUserJ (loc : List LocKey) : Json → List ErrItem
  | .obj fs =>
      fieldAt loc fs "username" true (cStr {}) ++
      fieldAt loc fs "full_name" false (cOptStr {}) ++
      fieldAt loc fs "image" false (fun l v =>
        match v with
        | .null => []
        | j => validateImageJ l j)
  | _ => [⟨loc, "value is not a valid dict", "type_error.dict"⟩]

/-- `Offer` from the source: `name: str`, `description: str | None`,
`price: float`, `items: List[Item]`; the nested items recurse with the index
kept in the location path. -/
def validateOfferJ (loc : List LocKey) : Json → List ErrItem
  | .obj fs =>
      fieldAt loc fs "name" true (cStr {}) ++
      fieldAt loc fs "description" false (cOptStr {}) ++
      fieldAt loc fs "price" true (cNum {}) ++
      fieldAt loc fs "items" true (fun l v =>
        match v with
        | .arr xs => (xs.enum.map (fun p => validateItemJ (l ++ [.i p.1]) p.2)).flatten
        | _ => [⟨l, "value is not a valid list", "type_error.list"⟩])
  | _ => [⟨loc, "value is not a valid dict", "type_error.dict"⟩]

/-- `UserIn` from the source: `username: str`, `email: EmailStr`,
`full_name: str | None`, `password: str`. -/
def validateUserInJ (loc : List LocKey) : Json → List ErrItem
  | .obj fs =>
      fieldAt loc fs "username" true (cStr {}) ++
      fieldAt loc fs "email" true (cStr {}) ++
      fieldAt loc fs "full_name" false (cOptStr {}) ++
      fieldAt loc fs "password" true (cStr {})
  | _ => [⟨loc, "value is not a valid dict", "type_error.dict"⟩]

/-- Lifts an error-list validator to the Constraint Engine's contract. -/
def asValidator (f : List LocKey → Json → List ErrItem) (loc : List LocKey)
    (j : Json) : Except (List ErrItem) Json :=
  match f loc j with
  | [] => .ok j
  | es => .error es

/-! ## Handler signatures from the source. -/

/-- `read_item`'s path parameter: `item_id: int = Path(..., ge=10, lt=1000)`. -/
def itemIdDecl : FieldDecl :=
  { name := "item_id", source := .path, required := true,
    validate := vInt [.s "path", .s "item_id"] { ge := some 10, lt := some 1000 } }

/-- `read_item`'s `needy: List[str] = Query(..., alias="kek-lol",
regex="^[0-9]*$")`. -/
def needyDecl : FieldDecl :=
  { name := "needy", source := .query, aliasKey := some "kek-lol", required := true,
    isCollection := true,
    validate := vListStr [.s "query", .s "kek-lol"] { pat := some .digits } }

/-- `read_item`'s `q: str | None = Query(None, min_length=2, max_length=5,
regex="^[a-zA-Z]*$")`. -/
def qDecl : FieldDecl :=
  { name := "q", source := .query, required := false, default := .null,
    validate := vOptStr [.s "query", .s "q"]
      { minLength := some 2, maxLength := some 5, pat := some .letters } }

/-- `read_item`'s `short: bool = False`. -/
def shortDecl : FieldDecl :=
  { name := "short", source := .query, required := false, default := .bool false,
    validate := vBool [.s "query", .s "short"] }

/-- The declaration list of `GET /item/{item_id}` (`read_item`). -/
def readItemDecls : List FieldDecl := [itemIdDecl, needyDecl, qDecl, shortDecl]

/-- `update_item`'s `item_id: int` path parameter. -/
def updItemIdDecl : FieldDecl :=
  { name := "item_id", source := .path, required := true,
    validate := vInt [.s "path", .s "item_id"] {} }

/-- `update_item`'s `item: Item` body field. -/
def updItemDecl : FieldDecl :=
  { name := "item", source := .bodyField, required := true,
    validate := asValidator validateItemJ [.s "body", .s "item"] }

/-- `update_item`'s `user: User` body field. -/
def updUserDecl : FieldDecl :=
  { name := "user", source := .bodyField, required := true,
    validate := asValidator validateUserJ [.s "body", .s "user"] }

/-- `update_item`'s `importance: int = Body(..., gt=5)`. -/
def updImportanceDecl : FieldDecl :=
  { name := "importance", source := .bodyField, required := true,
    validate := vInt [.s "body", .s "importance"] { gt := some 5 } }

/-- The declaration list of `PUT /items/{item_id}` (`update_item`): one path
parameter and three top-level body-sourced fields. -/
def updateItemDecls : List FieldDecl :=
  [updItemIdDecl, updItemDecl, updUserDecl, updImportanceDecl]

/-- `create_item`'s `item: Item = Body(..., embed=True)`. -/
def createItemBodyDecl : FieldDecl :=
  { name := "item", source := .bodyField, required := true, embed := true,
    validate := asValidator validateItemJ [.s "body", .s "item"] }

/-- The declaration list of `POST /items/` (`create_item`): a single body
field with embedding explicitly requested. -/
def createItemDecls : List FieldDecl := [createItemBodyDecl]

/-- `create_user`'s `user_in: UserIn`: the only body field, no embedding. -/
def userInDecl : FieldDecl :=
  { name := "user_in", source := .bodyField, required := true,
    validate := asValidator validateUserInJ [.s "body"] }

/-- The declaration list of `POST /user/` (`create_user`). -/
def createUserDecls : List FieldDecl := [userInDecl]

/-! ## Exception routing and the `read_item` endpoint (from the source). -/

/-- `UnicornException` from the source: its `__init__` stores `item_id` and
nothing else. -/
structure UnicornException where
  item_id : Int
deriving DecidableEq

/-- The attribute map an instance carries: exactly what `__init__` set. -/
def UnicornException.attrs (e : UnicornException) : List (String × Json) :=
  [("item_id", .num e.item_id)]

/-- Python attribute access on a `UnicornException` instance: `none` is an
`AttributeError`. -/
def UnicornException.getattr (e : UnicornException) (a : String) : Option Json :=
  e.attrs.lookup a

/-- Textual interpolation of a value, as an f-string renders it. -/
def jsonText : Json → String
  | .null => "None"
  | .bool b => if b then "True" else "False"
  | .num n => toString n
  | .str s => s
  | .arr _ => "..."
  | .obj _ => "..."

/-- `unicorn_exception_handler` from the source: builds a 418 response whose
message interpolates `exc.name`. The attribute lookup is explicit: the
handler returns no response when the attribute does not exist (in Python the
f-string raises `AttributeError` before `JSONResponse` is constructed). -/
def unicorn_exception_handler (exc : UnicornException) : Option Response :=
  (exc.getattr "name").map (fun n =>
    ⟨418, .obj [("message",
      .str ("Oops! " ++ jsonText n ++ " did something. There goes a rainbow..."))], []⟩)

/-- What a handler body produced: a value, a raised `HTTPException`, or a
raised `UnicornException`. -/
inductive HandlerOutcome where
  | ok (v : Json)
  | httpError (statusCode : Int) (detail : Json) (headers : List (String × String))
  | unicornError (exc : UnicornException)

/-- `read_item` from the source: 404 `HTTPException` below 20, a raised
`UnicornException(item_id=item_id)` at exactly 20, otherwise the item
payload with `q` and the long description added conditionally. -/
def read_item (item_id : Int) (needy : List String) (q : Option String)
    (short : Bool) : HandlerOutcome :=
  if item_id < 20 then
    .httpError 404 (.str "Item not found") [("X-Error", "There goes my error")]
  else if item_id = 20 then
    .unicornError ⟨item_id⟩
  else
    let item := [("item_id", Json.num item_id), ("needy", Json.arr (needy.map .str))]
    let item := match q with
      | some s => if s ≠ "" then item ++ [("q", Json.str s)] else item
      | none => item
    let item := if short then item else
      item ++ [("description",
        Json.str "This is an amazing item that has a long description")]
    .ok (.obj item)

/-- The catch-all response: an error escaping every registered handler is
turned into the generic plain 500 by the host. -/
def serverErrorResponse : Response :=
  ⟨500, .str "Internal Server Error", []⟩

/-- Modelled from the spec: the Exception Router's dispatch over a handler
outcome. An `HTTPException` goes to `custom_http_exception_handler`, which
delegates to the default builder (status and detail from the exception, its
declared headers attached); a `UnicornException` goes to its registered
builder; if that builder itself fails to produce a response, the terminal
catch-all produces the generic 500. -/
def dispatchOutcome : HandlerOutcome → Response
  | .ok j => ⟨200, j, []⟩
  | .httpError st d hs => ⟨st, .obj [("detail", d)], hs⟩
  | .unicornError e =>
      match unicorn_exception_handler e with
      | some r => r
      | none => serverErrorResponse

/-- Reads a bound integer argument. -/
def asInt : Json → Int
  | .num n => n
  | _ => 0

/-- Reads a bound list-of-strings argument. -/
def asStrList : Json → List String
  | .arr xs => xs.map jsonText
  | _ => []

/-- Reads a bound nullable string argument. -/
def asOptStr : Json → Option String
  | .str s => some s
  | _ => none

/-- Reads a bound boolean argument. -/
def asBool : Json → Bool
  | .bool b => b
  | _ => false

/-- The full pipeline of `GET /item/{item_id}`: bind against the declared
signature; on failure the validation branch answers 422 with every entry; on
success the handler runs on the bound arguments and its outcome is routed. -/
def runReadItem (req : Request) : Response :=
  match bindRequest readItemDecls req with
  | .error es => validationResponse es
  | .ok bound =>
      dispatchOutcome (read_item
        (asInt ((bound.lookup "item_id").getD .null))
        (asStrList ((bound.lookup "needy").getD (.arr [])))
        (asOptStr ((bound.lookup "q").getD .null))
        (asBool ((bound.lookup "short").getD (.bool false))))

/-! ## `create_item` (from the source). -/

/-- A validated `Image` value. -/
structure Image where
  url : String
  name : String
deriving DecidableEq

/-- A validated `Item` value, as bound from a request body. `keks` is a set
of strings in the source; it is carried here as its list of elements. -/
structure Item where
  name : String
  description : Option String
  price : Int
  tax : Option Int
  tags : List String
  keks : List String
  images : Option (List Image)
deriving DecidableEq

/-- JSON of a nullable string field. -/
def optStrJson : Option String → Json
  | none => .null
  | some s => .str s

/-- JSON of a nullable numeric field. -/
def optNumJson : Option Int → Json
  | none => .null
  | some n => .num n

/-- `Image.dict()`. -/
def Image.dict (i : Image) : Json :=
  .obj [("url", .str i.url), ("name", .str i.name)]

/-- `Item.dict()`: every declared field, in declaration order. -/
def Item.dict (i : Item) : List (String × Json) :=
  [("name", .str i.name),
   ("description", optStrJson i.description),
   ("price", .num i.price),
   ("tax", optNumJson i.tax),
   ("tags", .arr (i.tags.map .str)),
   ("keks", .arr (i.keks.map .str)),
   ("images", match i.images with
     | none => .null
     | some xs => .arr (xs.map Image.dict))]

/-- `create_item` from the source: returns `item.dict()`, adding
`price_with_tax = item.price + item.tax` exactly when `if item.tax:` is
truthy — so an absent tax or a tax of exactly 0 adds nothing. -/
def create_item (item : Item) : List (String × Json) :=
  let item_dict := Item.dict item
  match item.tax with
  | some t => if t ≠ 0 then item_dict ++ [("price_with_tax", .num (item.price + t))]
              else item_dict
  | none => item_dict

/-! ## `create_user` (from the source). -/

/-- `UserIn` from the source: the inbound user model, password included. -/
structure UserIn where
  username : String
  email : String
  full_name : Option String
  password : String
deriving DecidableEq

/-- `UserInDB` from the source: the stored user model with the derived
hashed password. -/
structure UserInDB where
  username : String
  email : String
  full_name : Option String
  hashed_password : String
deriving DecidableEq

/-- `fake_password_hasher` from the source. -/
def fake_password_hasher (raw_password : String) : String :=
  "supersecret" ++ raw_password

/-- `fake_save_user` from the source: spreads the inbound fields and adds
the hashed password. -/
def fake_save_user (user_in : UserIn) : UserInDB :=
  { username := user_in.username, email := user_in.email,
    full_name := user_in.full_name,
    hashed_password := fake_password_hasher user_in.password }

/-- `UserInDB.dict()`: every declared field, in declaration order. -/
def UserInDB.dict (u : UserInDB) : List (String × Json) :=
  [("username", .str u.username),
   ("email", .str u.email),
   ("full_name", optStrJson u.full_name),
   ("hashed_password", .str u.hashed_password)]

/-- The field names of `UserOut` from the source: exactly those of
`UserBase`, nothing more. -/
def userOutFields : List String := ["username", "email", "full_name"]

/-- Modelled from the spec: response shaping under a declared response
model — the outbound payload keeps exactly the response model's declared
fields, each taken from the handler's returned value. -/
def shapeWithResponseModel (fields : List String) (d : List (String × Json)) :
    List (String × Json) :=
  fields.filterMap (fun k => (d.lookup k).map (fun v => (k, v)))

/-- `create_user` from the source, composed with the `response_model=UserOut`
shaping applied to what the handler returns. -/
def create_user (user_in : UserIn) : List (String × Json) :=
  shapeWithResponseModel userOutFields (UserInDB.dict (fake_save_user user_in))

/-! ## Concrete requests and payloads used as test inputs. -/

/-- `GET /item/20?kek-lol=123`. -/
def req20 : Request :=
  { pathParams := [("item_id", "20")], queryParams := [("kek-lol", "123")] }

/-- `GET /item/5?kek-lol=123&q=toolong`: the path parameter violates `ge=10`
and `q` violates `max_length=5`. -/
def req5 : Request :=
  { pathParams := [("item_id", "5")],
    queryParams := [("kek-lol", "123"), ("q", "toolong")] }

/-- `GET /item/25?kek-lol=123`: a fully valid request. -/
def reqOK : Request :=
  { pathParams := [("item_id", "25")], queryParams := [("kek-lol", "123")] }

/-- A structured `Offer` body whose third item has price 0, violating the
`gt=0` constraint of `Item.price`. -/
def offerEx : Json := .obj
  [("name", .str "Foo"), ("price", .num 5),
   ("items", .arr
     [.obj [("name", .str "A"), ("price", .num 3)],
      .obj [("name", .str "B"), ("price", .num 7)],
      .obj [("name", .str "C"), ("price", .num 0)]])]

/-! ## Theorems. -/

theorem bindField_of_absent_required {all : List FieldDecl} {req : Request}
    {d : FieldDecl} (hex : extractRaw all req d = none) (hreq : d.required = true) :
    bindField all req d = .error [missingEntry d] := by
  simp [bindField, hex, hreq]

theorem bindField_of_absent_optional {all : List FieldDecl} {req : Request}
    {d : FieldDecl} (hex : extractRaw all req d = none) (hreq : d.required = false) :
    bindField all req d = d.validate d.default := by
  simp [bindField, hex, hreq]

theorem bindList_missing_sublist (all : List FieldDecl) (req : Request) :
    ∀ decls : List FieldDecl,
      List.Sublist
        ((decls.filter (fun d => d.required && (extractRaw all req d).isNone)).map
          missingEntry) (bindList decls all req).2
  | [] => by simp [bindList]
  | d :: rest => by
      have ih := bindList_missing_sublist all req rest
      by_cases h : (d.required && (extractRaw all req d).isNone) = true
      · have hreq : d.required = true := (Bool.and_eq_true _ _ |>.mp h).1
        have hex : extractRaw all req d = none :=
          Option.isNone_iff_eq_none.mp (Bool.and_eq_true _ _ |>.mp h).2
        simp only [List.filter_cons, h, if_true, List.map_cons]
        show List.Sublist _ (bindList (d :: rest) all req).2
        rw [bindList, bindField_of_absent_required hex hreq]
        exact ih.cons₂ _
      · simp only [List.filter_cons, h, if_false, Bool.false_eq_true, ite_false]
        show List.Sublist _ (bindList (d :: rest) all req).2
        rw [bindList]
        cases hbf : bindField all req d with
        | ok v => simp only [hbf]; exact ih
        | error es => simp only [hbf]; exact ih.trans (List.sublist_append_right es _)

/-- Claim C2: every absent required field of a handler signature contributes
its own missing-field entry to the aggregated failure, in declaration order
and never fewer — in particular the error list of a failed `bind` always
carries the missing entries of all absent required fields, so one field's
failure never suppresses another's. -/
theorem bind_missing_required_in_declaration_order
    (decls : List FieldDecl) (req : Request) :
    List.Sublist
      ((decls.filter (fun d => d.required && (extractRaw decls req d).isNone)).map
        missingEntry) (bindList decls decls req).2 ∧
    (∀ es, bindRequest decls req = .error es →
      List.Sublist
        ((decls.filter (fun d => d.required && (extractRaw decls req d).isNone)).map
          missingEntry) es) := by
  refine ⟨bindList_missing_sublist decls req decls, fun es hes => ?_⟩
  have h := bindList_missing_sublist decls req decls
  unfold bindRequest at hes
  revert hes
  rcases hbl : bindList decls decls req with ⟨vals, errs⟩
  cases errs with
  | nil => intro hes; cases hes
  | cons e rest =>
      intro hes
      cases hes
      simpa [hbl] using h

/-- Witness for C2: against an empty request, `update_item`'s four required
fields are all absent and all four missing entries appear in order. -/
theorem bind_missing_required_witness :
    List.Sublist
      ((updateItemDecls.filter
        (fun d => d.required && (extractRaw updateItemDecls {} d).isNone)).map
        missingEntry)
      [missingEntry updItemIdDecl, missingEntry updItemDecl,
       missingEntry updUserDecl, missingEntry updImportanceDecl] :=
  (bind_missing_required_in_declaration_order updateItemDecls {}).2 _ rfl

/-- Claim C8: binding is a pure function of the request and the declared
fields — binding equal requests yields identical results, with no hidden
state affecting a second run. -/
theorem bindRequest_deterministic (decls : List FieldDecl) (req₁ req₂ : Request)
    (h : req₁ = req₂) : bindRequest decls req₁ = bindRequest decls req₂ := by
  rw [h]

/-- Witness for C8 at a concrete valid request. -/
theorem bindRequest_deterministic_witness :
    bindRequest readItemDecls reqOK = bindRequest readItemDecls reqOK :=
  bindRequest_deterministic readItemDecls reqOK reqOK rfl

/-- Claim C6: an optional field absent from the request binds its declared
default, and the declared constraints are still applied to that default: if
the default validates, the default value itself appears among the bound
values, and if the default violates its constraints, those errors surface in
the aggregated failure rather than binding silently. -/
theorem bind_optional_absent_checks_default
    (all : List FieldDecl) (req : Request) (d : FieldDecl) :
    ∀ decls : List FieldDecl, d ∈ decls → d.required = false →
      extractRaw all req d = none →
      (∀ v, d.validate d.default = .ok v →
        (d.name, v) ∈ (bindList decls all req).1) ∧
      (∀ es, d.validate d.default = .error es →
        ∀ e ∈ es, e ∈ (bindList decls all req).2)
  | [], hmem, _, _ => absurd hmem (List.not_mem_nil d)
  | hd :: rest, hmem, hreq, hex => by
      have hb : bindField all req d = d.validate d.default :=
        bindField_of_absent_optional hex hreq
      rcases List.mem_cons.mp hmem with heq | hmem'
      · subst heq
        constructor
        · intro v hv
          rw [bindList, hb, hv]
          exact List.mem_cons_self _ _
        · intro es hes e he
          rw [bindList, hb, hes]
          exact List.mem_append_left _ he
      · obtain ⟨ih1, ih2⟩ :=
          bind_optional_absent_checks_default all req d rest hmem' hreq hex
        constructor
        · intro v hv
          rw [bindList]
          cases hbf : bindField all req hd with
          | ok w => exact List.mem_cons_of_mem _ (ih1 v hv)
          | error es' => exact ih1 v hv
        · intro es hes e he
          rw [bindList]
          cases hbf : bindField all req hd with
          | ok w => exact ih2 es hes e he
          | error es' => exact List.mem_append_right _ (ih2 es hes e he)

/-- Witness for C6: in a request without `q`, the optional `q` field of
`read_item` binds its (valid) default `None`. -/
theorem bind_optional_absent_checks_default_witness :
    ("q", Json.null) ∈ (bindList readItemDecls readItemDecls reqOK).1 :=
  (bind_optional_absent_checks_default readItemDecls reqOK qDecl readItemDecls
    (List.mem_cons_of_mem _ (List.mem_cons_of_mem _ (List.mem_cons_self _ _)))
    rfl rfl).1 .null rfl

/-- Claim C4: the `needy` field of `read_item` is read from the query
parameter literally named by its alias `kek-lol`: adding a query parameter
named `needy` never changes what is extracted for it, and when no `kek-lol`
occurrence exists the field is missing (required), whatever else the query
string holds. -/
theorem needy_read_from_alias_only (req : Request) (v : String) :
    extractRaw readItemDecls
        { req with queryParams := ("needy", v) :: req.queryParams } needyDecl =
      extractRaw readItemDecls req needyDecl ∧
    (lookupAll req.queryParams "kek-lol" = [] →
      bindField readItemDecls req needyDecl = .error [missingEntry needyDecl]) := by
  have hall : lookupAll (("needy", v) :: req.queryParams) "kek-lol" =
      lookupAll req.queryParams "kek-lol" := by
    simp [lookupAll, List.filter_cons]
  constructor
  · simp only [extractRaw, needyDecl, keyOf, Option.getD, if_true]
    rw [hall]
  · intro h
    simp [bindField, extractRaw, needyDecl, keyOf, h]

/-- Witness for C4: with only a `needy=123` query parameter, the field is
reported missing. -/
theorem needy_read_from_alias_only_witness :
    bindField readItemDecls
      { pathParams := [("item_id", "25")], queryParams := [("needy", "123")] }
      needyDecl = .error [missingEntry needyDecl] :=
  (needy_read_from_alias_only
    { pathParams := [("item_id", "25")], queryParams := [("needy", "123")] } "x").2 rfl

/-- Claim C5: `update_item` (three top-level body fields) and `create_item`
(`embed=True`) are embedded signatures, so each of their body fields is
looked up under its own key inside the parsed body map, while `create_user`
(a single body field, no embedding) receives the entire body as the field's
value directly. -/
theorem body_extraction_embedded_vs_single (req : Request) :
    bodyEmbedded updateItemDecls = true ∧
    extractRaw updateItemDecls req updItemDecl = req.body.bind (objLookup "item") ∧
    extractRaw updateItemDecls req updUserDecl = req.body.bind (objLookup "user") ∧
    extractRaw updateItemDecls req updImportanceDecl =
      req.body.bind (objLookup "importance") ∧
    bodyEmbedded createItemDecls = true ∧
    extractRaw createItemDecls req createItemBodyDecl =
      req.body.bind (objLookup "item") ∧
    bodyEmbedded createUserDecls = false ∧
    extractRaw createUserDecls req userInDecl = req.body := by
  have e1 : bodyEmbedded updateItemDecls = true := rfl
  have e2 : bodyEmbedded createItemDecls = true := rfl
  have e3 : bodyEmbedded createUserDecls = false := rfl
  refine ⟨e1, ?_, ?_, ?_, e2, ?_, e3, ?_⟩ <;> cases hb : req.body <;>
    simp [extractRaw, updItemDecl, updUserDecl, updImportanceDecl,
      createItemBodyDecl, userInDecl, keyOf, hb, e1, e2, e3]

/-- Claim C3: for `GET /item/5` (bound `ge=10`), binding fails and the
pipeline answers 422; the detail enumerates an entry at `["path","item_id"]`
whose type names the violated range bound, and the second collected error
(on `q`) appears alongside it rather than being dropped. -/
theorem read_item_range_violation_422 :
    runReadItem req5 = validationResponse
      [⟨[.s "path", .s "item_id"],
        "ensure this value is greater than or equal to 10",
        "value_error.number.not_ge"⟩,
       ⟨[.s "query", .s "q"],
        "ensure this value has at most 5 characters",
        "value_error.any_str.max_length"⟩] ∧
    (runReadItem req5).statusCode = 422 :=
  ⟨rfl, rfl⟩

/-- Claim C1 (code bug): at `item_id=20` the handler raises
`UnicornException(item_id=20)` and a builder is registered for exactly that
category, but the builder interpolates `exc.name` — an attribute the
exception's constructor never sets — so it produces no response and the
request is answered by the generic 500 path instead of the 418 one with the
carried identifier. -/
theorem unicorn_handler_crashes_at_20 :
    read_item 20 ["123"] none false = .unicornError ⟨20⟩ ∧
    (UnicornException.mk 20).getattr "name" = none ∧
    unicorn_exception_handler ⟨20⟩ = none ∧
    runReadItem req20 = serverErrorResponse ∧
    serverErrorResponse.statusCode = 500 :=
  ⟨rfl, rfl, rfl, rfl, rfl⟩

/-- Claim C7: a structured `Offer` body whose third item has price 0
(violating `gt=0` on `Item.price`) fails with location
`["body","items",2,"price"]` — the nested item recursed with its parent path
and list index prefixed. -/
theorem offer_nested_price_location :
    validateOfferJ [.s "body"] offerEx =
      [⟨[.s "body", .s "items", .i 2, .s "price"],
        "ensure this value is greater than 0", "value_error.number.not_gt"⟩] :=
  rfl

/-- Claim C9: the response of `create_item` carries `price_with_tax` exactly
when the bound tax is truthy — a present, non-zero tax; a tax of exactly 0
(or an omitted tax) adds no such key, and when present its value is
`price + tax`. -/
theorem create_item_price_with_tax_iff_truthy (item : Item) :
    (("price_with_tax" ∈ (create_item item).map Prod.fst) ↔
      ∃ t, item.tax = some t ∧ t ≠ 0) ∧
    (∀ t, item.tax = some t → t ≠ 0 →
      (create_item item).lookup "price_with_tax" = some (.num (item.price + t))) ∧
    (item.tax = some 0 →
      (create_item item).map Prod.fst =
        ["name", "description", "price", "tax", "tags", "keks", "images"]) := by
  have hkeys : (Item.dict item).map Prod.fst =
      ["name", "description", "price", "tax", "tags", "keks", "images"] := rfl
  refine ⟨?_, ?_, ?_⟩
  · cases htax : item.tax with
    | none =>
        simp only [create_item, htax]
        constructor
        · intro hmem
          rw [hkeys] at hmem
          exact absurd hmem (by decide)
        · rintro ⟨t, ht, -⟩
          cases ht
    | some t =>
        by_cases ht : t = 0
        · subst ht
          simp only [create_item, htax]
          rw [if_neg (by simp)]
          constructor
          · intro hmem
            rw [hkeys] at hmem
            exact absurd hmem (by decide)
          · rintro ⟨t', ht', hne⟩
            cases ht'
            exact absurd rfl hne
        · simp only [create_item, htax]
          rw [if_pos ht]
          constructor
          · intro _
            exact ⟨t, rfl, ht⟩
          · intro _
            simp [Item.dict]
  · intro t htax hne
    simp only [create_item, htax]
    rw [if_pos hne]
    rfl
  · intro htax
    simp only [create_item, htax]
    rw [if_neg (by simp)]
    rfl

/-- A concrete valid item with a non-zero tax. -/
def itemA : Item :=
  { name := "Foo", description := none, price := 35, tax := some 3,
    tags := [], keks := [], images := none }

/-- Witness for C9: with price 35 and tax 3, the response carries
`price_with_tax = 38`. -/
theorem create_item_price_with_tax_witness :
    (create_item itemA).lookup "price_with_tax" = some (.num 38) :=
  (create_item_price_with_tax_iff_truthy itemA).2.1 3 rfl (by decide)

/-- Claim C10: the `create_user` response, shaped by `response_model=UserOut`,
carries exactly `username`, `email` and `full_name` — never the password or
the derived hashed password — so two requests identical except for the
password produce identical responses. -/
theorem create_user_fields_and_password_independence (u₁ u₂ : UserIn) :
    (create_user u₁).map Prod.fst = ["username", "email", "full_name"] ∧
    "password" ∉ (create_user u₁).map Prod.fst ∧
    "hashed_password" ∉ (create_user u₁).map Prod.fst ∧
    (u₁.username = u₂.username → u₁.email = u₂.email →
      u₁.full_name = u₂.full_name → create_user u₁ = create_user u₂) := by
  have h : ∀ u : UserIn, create_user u =
      [("username", .str u.username), ("email", .str u.email),
       ("full_name", optStrJson u.full_name)] := fun u => rfl
  refine ⟨by rw [h]; rfl, by rw [h]; simp, by rw [h]; simp, fun h1 h2 h3 => ?_⟩
  rw [h u₁, h u₂, h1, h2, h3]

/-- A user with password `pw1`. -/
def userA : UserIn :=
  { username := "alice", email := "alice@example.com", full_name := none,
    password := "pw1" }

/-- The same user except for the password. -/
def userB : UserIn :=
  { username := "alice", email := "alice@example.com", full_name := none,
    password := "pw2" }

/-- Witness for C10: the two responses coincide although the passwords
differ. -/
theorem create_user_password_independence_witness :
    create_user userA = create_user userB :=
  (create_user_fields_and_password_independence userA userB).2.2.2 rfl rfl rfl
